import Mathlib

/-!
Shallow embedding of the asset hot-reload / GPU resource lifecycle subsystem
and the render batching engine of the wgpu_lua_fun repository
(src/render/shader.rs, src/render/mesh.rs, src/render/texture.rs,
src/render/bundle/model.rs, src/render/material/mod.rs).

Modelling conventions:
  * `HashMap` / `HashSet` state becomes association lists (`List (κ × α)`)
    with replace-on-insert semantics; iteration order of a `HashMap` is
    unspecified in Rust, so the association-list order stands for one
    possible iteration order.
  * GPU objects (`wgpu::ShaderModule`, buffers, bind groups, pipelines)
    become records carrying their creation data plus a generation number
    `gen` drawn from a device counter threaded through each call; each
    `device.create_*` call consumes one counter value, so two objects
    created by distinct calls have distinct `gen` fields.
  * The worker-pool channel of each registry becomes an explicit FIFO list
    in the registry state; `try_recv` pops the head.  Job submission to the
    pool is logged in a `jobs` list (the result arriving later on the
    channel is an asynchronous event outside a single call).
  * The debounce clock (`last_reload.elapsed() >= RELOAD_DEBOUNCE`) becomes
    a boolean input `debounce` valid at the start of the scan; accepting a
    reload resets the clock, so the boolean turns false for the rest of
    the same scan.
  * f32 scalar payloads are abstracted to `Int`: only data flow and
    indexing matter to the claims, never floating-point arithmetic.
-/

namespace WgpuLuaFun

/-- Association-list lookup, the embedding of `HashMap::get`. -/
def lookupA {κ α : Type} [DecidableEq κ] : List (κ × α) → κ → Option α
  | [], _ => none
  | (k, v) :: rest, k0 => if k = k0 then some v else lookupA rest k0

/-- Association-list insert with replace semantics, the embedding of
`HashMap::insert` (an existing binding keeps its position, a new binding
goes to the back). -/
def insertA {κ α : Type} [DecidableEq κ] : List (κ × α) → κ → α → List (κ × α)
  | [], k0, v0 => [(k0, v0)]
  | (k, v) :: rest, k0, v0 =>
    if k = k0 then (k0, v0) :: rest else (k, v) :: insertA rest k0 v0

theorem lookupA_insertA_self {κ α : Type} [DecidableEq κ]
    (l : List (κ × α)) (k : κ) (v : α) :
    lookupA (insertA l k v) k = some v := by
  induction l with
  | nil => simp [insertA, lookupA]
  | cons p rest ih =>
    by_cases h : p.1 = k
    · simp [insertA, lookupA, h]
    · simp [insertA, lookupA, h, ih]

theorem lookupA_insertA_ne {κ α : Type} [DecidableEq κ]
    (l : List (κ × α)) (k k0 : κ) (v : α) (h : k0 ≠ k) :
    lookupA (insertA l k v) k0 = lookupA l k0 := by
  have hk : ¬ k = k0 := fun e => h (Eq.symm e)
  induction l with
  | nil => simp [insertA, lookupA, hk]
  | cons p rest ih =>
    by_cases hp : p.1 = k
    · simp [insertA, lookupA, hp, hk]
    · by_cases hp0 : p.1 = k0 <;>
        simp [insertA, lookupA, hp, hp0, hk, h, ih]

/-- Load failure payloads (`anyhow::Error` in the source). -/
structure LoadError where
  msg : String
deriving DecidableEq, Repr

/-- The debounced change scan common to every registry hot_reload: walk the
keys of the materialized map; a key whose handle reports a global reload
while the debounce window has elapsed resubmits a load job and resets the
debounce clock (so the window is closed for the rest of this scan).
Returns the final clock state and the submitted job ids in order. -/
def scanReload (debounce : Bool) (changed : List String) :
    List String → Bool × List String
  | [] => (debounce, [])
  | k :: rest =>
    if debounce ∧ k ∈ changed then
      ((scanReload false changed rest).1, k :: (scanReload false changed rest).2)
    else scanReload debounce changed rest

theorem scanReload_false (changed : List String) (keys : List String) :
    scanReload false changed keys = (false, []) := by
  induction keys with
  | nil => rfl
  | cons k rest ih => simp [scanReload, ih]

/-- With a single changed id and an open debounce window, the scan submits
exactly one job for that id when it is among the keys, none otherwise. -/
theorem scanReload_single (id : String) (keys : List String) :
    (scanReload true [id] keys).2 = if id ∈ keys then [id] else [] := by
  induction keys with
  | nil => rfl
  | cons k rest ih =>
    by_cases hk : k = id
    · subst hk
      simp [scanReload, scanReload_false]
    · have hik : ¬ id = k := fun e => hk (Eq.symm e)
      simp [scanReload, hk, ih, hik]

/-- A compiled GPU shader module (`wgpu::ShaderModule`): the WGSL source it
was built from plus the device generation at creation. -/
structure GpuModule where
  source : String
  gen : Nat
deriving DecidableEq, Repr

/-- `ShaderAssets` (src/render/shader.rs): the shader registry state. -/
structure ShaderAssets where
  /-- id republished as "reloaded this frame", `frame_reloaded`. -/
  frame_reloaded : Option String
  /-- the `loaded` membership set guarding `load`. -/
  loaded : List String
  /-- the materialized module map, `modules`. -/
  modules : List (String × GpuModule)
  /-- pending results on the mpsc channel (FIFO), head = next `try_recv`. -/
  channel : List (String × Except LoadError String)
  /-- log of background jobs submitted to the pool, in submission order. -/
  jobs : List String
deriving Repr

/-- `ShaderAssets::load`: suppressed when the id is already in the
`loaded` set; otherwise inserts the id and submits one background job. -/
def ShaderAssets.load (s : ShaderAssets) (id : String) : ShaderAssets :=
  if id ∈ s.loaded then s
  else { s with loaded := id :: s.loaded, jobs := s.jobs ++ [id] }

/-- `ShaderAssets::get`. -/
def ShaderAssets.get (s : ShaderAssets) (id : String) : Option GpuModule :=
  lookupA s.modules id

/-- `ShaderAssets::hot_reload`: reset `frame_reloaded`, run the debounced
change scan over the module keys (resubmitting jobs), then drain at most
one result from the channel: on `Ok`, create the module on the device,
set `frame_reloaded` and insert into the map; on `Err`, remove the id from
the `loaded` set.  `dev` is the device creation counter. -/
def ShaderAssets.hot_reload (s : ShaderAssets) (dev : Nat) (debounce : Bool)
    (changed : List String) : ShaderAssets × Nat :=
  let newJobs := (scanReload debounce changed (s.modules.map Prod.fst)).2
  match s.channel with
  | [] =>
    ({ s with frame_reloaded := none, jobs := s.jobs ++ newJobs }, dev)
  | (id, Except.ok src) :: rest =>
    ({ frame_reloaded := some id
       loaded := s.loaded
       modules := insertA s.modules id { source := src, gen := dev }
       channel := rest
       jobs := s.jobs ++ newJobs }, dev + 1)
  | (id, Except.error _) :: rest =>
    ({ frame_reloaded := none
       loaded := s.loaded.filter (fun x => x ≠ id)
       modules := s.modules
       channel := rest
       jobs := s.jobs ++ newJobs }, dev)

/-- A model vertex (src/render/bundle/model.rs `Vertex`); scalars abstracted
to `Int` (see header). -/
structure Vertex where
  position : Int × Int × Int
  tex_coord : Int × Int
  normal : Int × Int × Int
deriving DecidableEq, Repr

/-- A materialized GPU mesh (`Mesh`): vertex buffer, index buffer,
`num_indices`, plus the device generation at creation. -/
structure Mesh where
  vertex_buffer : List Vertex
  index_buffer : List Nat
  num_indices : Nat
  gen : Nat
deriving DecidableEq, Repr

/-- `Mesh::new`: uploads both buffers and records `indices.len()`. -/
def Mesh.new (vertices : List Vertex) (indices : List Nat) (dev : Nat) : Mesh :=
  { vertex_buffer := vertices
    index_buffer := indices
    num_indices := indices.length
    gen := dev }

/-- One parsed model out of `tobj::load_obj_buf` (the fields of
`tobj::Mesh` the loader reads). -/
structure ObjMesh where
  positions : List Int
  texcoords : List Int
  normals : List Int
  indices : List Nat
deriving DecidableEq, Repr

/-- The per-model vertex build loop of `MeshAssets::load_internal`
(model.rs-style indexing `positions[i*3]`, `texcoords[i*2]`,
`1.0 - texcoords[i*2+1]`, `normals[i*3]`): every index access is through
`get?`, and `none` stands for the Rust index-out-of-bounds panic. -/
def buildVertices (m : ObjMesh) : Option (List Vertex) :=
  (List.range (m.positions.length / 3)).mapM fun i => do
    let p0 ← m.positions.get? (i * 3)
    let p1 ← m.positions.get? (i * 3 + 1)
    let p2 ← m.positions.get? (i * 3 + 2)
    let t0 ← m.texcoords.get? (i * 2)
    let t1 ← m.texcoords.get? (i * 2 + 1)
    let n0 ← m.normals.get? (i * 3)
    let n1 ← m.normals.get? (i * 3 + 1)
    let n2 ← m.normals.get? (i * 3 + 2)
    pure { position := (p0, p1, p2)
           tex_coord := (t0, 1 - t1)
           normal := (n0, n1, n2) }

/-- The whole worker closure of `MeshAssets::load_internal` after the obj
parse: accumulate vertices and indices over the parsed models, then send
exactly one `(id, result)` message.  The outer `Option` is `none` exactly
when the vertex build panics (index out of bounds), in which case nothing
is sent and the worker thread dies. -/
def meshWorkerSend (id : String) (parse : Except LoadError (List ObjMesh)) :
    Option (String × Except LoadError (List Vertex × List Nat)) :=
  match parse with
  | Except.error e => some (id, Except.error e)
  | Except.ok models =>
    match models.foldlM
        (fun (acc : List Vertex × List Nat) m => do
          let vs ← buildVertices m
          pure (acc.1 ++ vs, acc.2 ++ m.indices)) (([], []) : List Vertex × List Nat) with
    | none => none
    | some payload => some (id, Except.ok payload)

/-- `MeshAssets` (src/render/mesh.rs): the mesh registry state. -/
structure MeshAssets where
  loaded : List String
  meshes : List (String × Mesh)
  channel : List (String × Except LoadError (List Vertex × List Nat))
  jobs : List String
deriving Repr

/-- `MeshAssets::load`: same `loaded`-set guard as the shader registry. -/
def MeshAssets.load (s : MeshAssets) (id : String) : MeshAssets :=
  if id ∈ s.loaded then s
  else { s with loaded := id :: s.loaded, jobs := s.jobs ++ [id] }

/-- `MeshAssets::get`. -/
def MeshAssets.get (s : MeshAssets) (id : String) : Option Mesh :=
  lookupA s.meshes id

/-- `MeshAssets::hot_reload`: debounced change scan over the mesh keys,
then drain at most one channel result; `Ok` constructs the GPU mesh and
overwrites the map entry, `Err` removes the id from the `loaded` set. -/
def MeshAssets.hot_reload (s : MeshAssets) (dev : Nat) (debounce : Bool)
    (changed : List String) : MeshAssets × Nat :=
  let newJobs := (scanReload debounce changed (s.meshes.map Prod.fst)).2
  match s.channel with
  | [] =>
    ({ s with jobs := s.jobs ++ newJobs }, dev)
  | (id, Except.ok (vertices, indices)) :: rest =>
    ({ loaded := s.loaded
       meshes := insertA s.meshes id (Mesh.new vertices indices dev)
       channel := rest
       jobs := s.jobs ++ newJobs }, dev + 1)
  | (id, Except.error _) :: rest =>
    ({ loaded := s.loaded.filter (fun x => x ≠ id)
       meshes := s.meshes
       channel := rest
       jobs := s.jobs ++ newJobs }, dev)

/-- A decoded image (`image::DynamicImage` payload abstracted). -/
structure Image where
  pixels : List Nat
deriving DecidableEq, Repr

/-- A materialized GPU texture (`Texture`): its image plus the device
generation at creation. -/
structure Texture where
  image : Image
  gen : Nat
deriving DecidableEq, Repr

/-- `TextureAssets` (src/render/texture.rs).  Unlike the shader and mesh
registries it has no `loaded` set: `load` is guarded by
`cache.contains::<Image>(id)`, and the cache only gains the id when the
background worker executes `cache.load`, modelled by `cachePresent`. -/
structure TextureAssets where
  /-- ids currently present in the `AssetCache` (filled by workers). -/
  cachePresent : List String
  textures : List (String × Texture)
  channel : List (Except LoadError (String × Image))
  jobs : List String
deriving Repr

/-- `TextureAssets::load`: returns early only when the asset cache already
holds the id; submission itself does not touch the cache. -/
def TextureAssets.load (s : TextureAssets) (id : String) : TextureAssets :=
  if id ∈ s.cachePresent then s
  else { s with jobs := s.jobs ++ [id] }

/-- `TextureAssets::get`. -/
def TextureAssets.get (s : TextureAssets) (id : String) : Option Texture :=
  lookupA s.textures id

/-- `TextureAssets::hot_reload`: debounced change scan over the texture
keys, then drain at most one channel result; `Ok` creates the GPU texture
and overwrites the map entry, `Err` only logs (no other state change). -/
def TextureAssets.hot_reload (s : TextureAssets) (dev : Nat) (debounce : Bool)
    (changed : List String) : TextureAssets × Nat :=
  let newJobs := (scanReload debounce changed (s.textures.map Prod.fst)).2
  match s.channel with
  | [] =>
    ({ s with jobs := s.jobs ++ newJobs }, dev)
  | Except.ok (id, img) :: rest =>
    ({ cachePresent := s.cachePresent
       textures := insertA s.textures id { image := img, gen := dev }
       channel := rest
       jobs := s.jobs ++ newJobs }, dev + 1)
  | Except.error _ :: rest =>
    ({ cachePresent := s.cachePresent
       textures := s.textures
       channel := rest
       jobs := s.jobs ++ newJobs }, dev)

/-- One stored material (src/render/material: the data an
`InternalMaterial`'s accessor closures expose: `shader_id`, `texture_id`,
`uniform_data_bytes`; uniform bytes abstracted to `List Nat`). -/
structure MaterialRecord where
  shader_id : String
  texture_id : String
  uniform : List Nat
deriving DecidableEq, Repr

/-- `MaterialManager` (src/render/material/mod.rs). -/
structure MaterialManager where
  materials : List (String × MaterialRecord)
deriving Repr

/-- `MaterialManager::get_shader_id`. -/
def MaterialManager.get_shader_id (mm : MaterialManager) (key : String) :
    Option String :=
  (lookupA mm.materials key).map (fun r => r.shader_id)

/-- `MaterialManager::get_texture_id`. -/
def MaterialManager.get_texture_id (mm : MaterialManager) (key : String) :
    Option String :=
  (lookupA mm.materials key).map (fun r => r.texture_id)

/-- `MaterialManager::get_uniform_data_bytes`. -/
def MaterialManager.get_uniform_data_bytes (mm : MaterialManager)
    (key : String) : Option (List Nat) :=
  (lookupA mm.materials key).map (fun r => r.uniform)

/-- A GPU render pipeline (model.rs `Pipeline`): the generation of the
shader module it was built from plus its own device generation. -/
structure Pipeline where
  shader_gen : Nat
  gen : Nat
deriving DecidableEq, Repr

/-- `Pipeline::new`: a fresh pipeline built from the given module. -/
def Pipeline.new (module : GpuModule) (dev : Nat) : Pipeline :=
  { shader_gen := module.gen, gen := dev }

/-- `Bundle` (model.rs): pipeline map plus the registered-shaders set. -/
structure Bundle where
  pipelines : List (String × Pipeline)
  registered_shaders : List String
deriving Repr

/-- `Bundle::register_shader`. -/
def Bundle.register_shader (bd : Bundle) (shader_id : String) : Bundle :=
  if shader_id ∈ bd.registered_shaders then bd
  else { bd with registered_shaders := shader_id :: bd.registered_shaders }

/-- `Bundle::hot_reload`: consume the shader registry's reload signal; for
a registered id, `shaders.get(shader_id).unwrap()` (the `none` result
stands for that unwrap panicking) and replace the pipeline entry with a
newly built one. -/
def Bundle.hot_reload (bd : Bundle) (dev : Nat) (shaders : ShaderAssets) :
    Option (Bundle × Nat) :=
  match shaders.frame_reloaded with
  | none => some (bd, dev)
  | some shader_id =>
    if shader_id ∈ bd.registered_shaders then
      match lookupA shaders.modules shader_id with
      | none => none
      | some module =>
        some ({ bd with
                  pipelines := insertA bd.pipelines shader_id
                    (Pipeline.new module dev) }, dev + 1)
    else some (bd, dev)

/-- A GPU bind group for the model layout (model.rs `Layout::bind`): the
texture id it was bound against plus its device generation. -/
structure BindGroup where
  texture_id : String
  gen : Nat
deriving DecidableEq, Repr

/-- model.rs `MaterialData`: cached bind group plus the uniform buffer
contents. -/
structure MaterialData where
  bind_group : BindGroup
  buffer : List Nat
deriving DecidableEq, Repr

/-- model.rs `Key`: the composite batch key. -/
structure Key where
  mesh_id : String
  material_id : String
deriving DecidableEq, Repr

/-- A per-instance record (model.rs `Instance`: world matrix + normal
matrix, abstracted). -/
structure Instance where
  world_local : Int
  normal : Int
deriving DecidableEq, Repr

/-- model.rs `InstanceArray`. -/
structure InstanceArray where
  buffer : Option (List Instance)
  data : List Instance
deriving DecidableEq, Repr

/-- model.rs `Batches`: bind-group cache keyed by material id, instance
arrays keyed by batch key. -/
structure Batches where
  materials : List (String × MaterialData)
  instances : List (Key × InstanceArray)
deriving Repr

/-- `entry(key).or_default().data.push(instance)`: append to an existing
key's array, or create a fresh entry (placed at the back, one possible
`HashMap` iteration position). -/
def pushInstance : List (Key × InstanceArray) → Key → Instance →
    List (Key × InstanceArray)
  | [], key, inst => [(key, { buffer := none, data := [inst] })]
  | (k, ia) :: rest, key, inst =>
    if k = key then (k, { ia with data := ia.data ++ [inst] }) :: rest
    else (k, ia) :: pushInstance rest key inst

/-- `Batches::add_model`. -/
def Batches.add_model (b : Batches) (mesh_id material_id : String)
    (inst : Instance) : Batches :=
  let key : Key := { mesh_id := mesh_id, material_id := material_id }
  { b with instances := pushInstance b.instances key inst }

/-- `Batches::clear`. -/
def Batches.clear (b : Batches) : Batches :=
  { b with instances := [] }

/-- The loop body sequence of `Batches::prepare` over the instance map in
iteration order.  Faithful to the source, including the early `return`
(not `continue`) when `materials.get_texture_id` misses: the remaining
entries are left untouched.  Returns the rewritten instance list, the
updated bind-group cache and the device counter. -/
def prepareGo (textures : List (String × Texture)) (mm : MaterialManager) :
    List (String × MaterialData) → Nat → List (Key × InstanceArray) →
    List (Key × InstanceArray) × List (String × MaterialData) × Nat
  | mats, dev, [] => ([], mats, dev)
  | mats, dev, (key, ia) :: rest =>
    if ia.data.isEmpty then
      ((key, ia) :: (prepareGo textures mm mats dev rest).1,
        (prepareGo textures mm mats dev rest).2.1,
        (prepareGo textures mm mats dev rest).2.2)
    else
      match mm.get_texture_id key.material_id with
      | none => ((key, ia) :: rest, mats, dev)
      | some texture_id =>
        let step : List (String × MaterialData) × Nat :=
          match lookupA textures texture_id,
              mm.get_uniform_data_bytes key.material_id with
          | some _, some uniform_data =>
            (match lookupA mats key.material_id with
             | some md =>
               (insertA mats key.material_id { md with buffer := uniform_data },
                 dev)
             | none =>
               (insertA mats key.material_id
                 { bind_group := { texture_id := texture_id, gen := dev }
                   buffer := uniform_data }, dev + 1))
          | _, _ => (mats, dev)
        ((key, { ia with buffer := some ia.data }) ::
            (prepareGo textures mm step.1 step.2 rest).1,
          (prepareGo textures mm step.1 step.2 rest).2.1,
          (prepareGo textures mm step.1 step.2 rest).2.2)

/-- `Batches::prepare`. -/
def Batches.prepare (b : Batches) (dev : Nat)
    (textures : List (String × Texture)) (mm : MaterialManager) :
    Batches × Nat :=
  let r := prepareGo textures mm b.materials dev b.instances
  ({ materials := r.2.1, instances := r.1 }, r.2.2)

/-- One issued indexed-instanced draw call of `Batches::render` with
everything it binds. -/
structure DrawCall where
  key : Key
  pipeline_gen : Nat
  bind_group : BindGroup
  num_indices : Nat
  instance_count : Nat
  instance_buffer : List Instance
deriving DecidableEq, Repr

/-- One loop iteration of `Batches::render`: emit a draw only when the
array is non-empty, the material's shader id resolves, and mesh,
bind-group cache entry, pipeline and instance buffer are all present. -/
def renderEntry (mats : List (String × MaterialData)) (bd : Bundle)
    (meshes : List (String × Mesh)) (mm : MaterialManager)
    (key : Key) (ia : InstanceArray) : Option DrawCall :=
  if ia.data.isEmpty then none
  else
    match mm.get_shader_id key.material_id with
    | none => none
    | some shader_id =>
      match lookupA meshes key.mesh_id, lookupA mats key.material_id,
          lookupA bd.pipelines shader_id, ia.buffer with
      | some mesh, some md, some pipe, some buf =>
        some { key := key
               pipeline_gen := pipe.gen
               bind_group := md.bind_group
               num_indices := mesh.num_indices
               instance_count := ia.data.length
               instance_buffer := buf }
      | _, _, _, _ => none

/-- `Batches::render`: each entry contributes zero or one draw call. -/
def Batches.render (b : Batches) (bd : Bundle)
    (meshes : List (String × Mesh)) (mm : MaterialManager) : List DrawCall :=
  b.instances.filterMap (fun p => renderEntry b.materials bd meshes mm p.1 p.2)

/-- All four render dependencies of the claim for one entry: mesh present,
bind-group cache entry present, pipeline present for the material's
shader id, instance buffer built. -/
def depsResolved (mats : List (String × MaterialData)) (bd : Bundle)
    (meshes : List (String × Mesh)) (mm : MaterialManager)
    (key : Key) (ia : InstanceArray) : Bool :=
  (lookupA meshes key.mesh_id).isSome &&
  (lookupA mats key.material_id).isSome &&
  ((mm.get_shader_id key.material_id).bind
    (fun sid => lookupA bd.pipelines sid)).isSome &&
  ia.buffer.isSome

theorem mem_of_lookupA {κ α : Type} [DecidableEq κ]
    (l : List (κ × α)) (k : κ) (v : α) (h : lookupA l k = some v) :
    (k, v) ∈ l := by
  induction l with
  | nil => simp [lookupA] at h
  | cons p rest ih =>
    by_cases hp : p.1 = k
    · simp [lookupA, hp] at h
      subst h
      subst hp
      rw [Prod.mk.eta]
      exact List.mem_cons_self p rest
    · simp [lookupA, hp] at h
      exact List.mem_cons_of_mem _ (ih h)

theorem mem_map_fst_of_lookupA {κ α : Type} [DecidableEq κ]
    (l : List (κ × α)) (k : κ) (v : α) (h : lookupA l k = some v) :
    k ∈ l.map Prod.fst := by
  have := mem_of_lookupA l k v h
  exact List.mem_map.mpr ⟨(k, v), this, rfl⟩

theorem lookupA_eq_of_nodup_mem {κ α : Type} [DecidableEq κ]
    (l : List (κ × α)) (k : κ) (a b : α)
    (hnodup : (l.map Prod.fst).Nodup)
    (ha : (k, a) ∈ l) (hb : (k, b) ∈ l) : a = b := by
  induction l with
  | nil => simp at ha
  | cons p rest ih =>
    simp only [List.map_cons, List.nodup_cons] at hnodup
    cases ha with
    | head =>
      cases hb with
      | head => rfl
      | tail _ hb =>
        exact absurd (List.mem_map.mpr ⟨(k, b), hb, rfl⟩) hnodup.1
    | tail _ ha =>
      cases hb with
      | head =>
        exact absurd (List.mem_map.mpr ⟨(k, a), ha, rfl⟩) hnodup.1
      | tail _ hb => exact ih hnodup.2 ha hb

/-- Claim C2 (counterexample): for the texture registry, two immediate
`load("white")` calls on a fresh registry — before any background worker
has populated the asset cache — submit two background jobs, not at most
one: the guard is `cache.contains`, which only the worker updates, so it
does not suppress the second call. -/
theorem load_twice_texture_two_jobs :
    ((((TextureAssets.mk [] [] [] []).load "white").load "white").jobs
        = ["white", "white"])
    ∧ ¬ ((((TextureAssets.mk [] [] [] []).load "white").load "white").jobs.length
        ≤ 1) := by
  constructor
  · rfl
  · decide

/-- Claim C2 (amended): for the shader and mesh registries, two immediate
`load(id)` calls submit at most one background job — the second call is
suppressed by the `loaded` membership set, which the first call updates
synchronously.  The job log grows by exactly `[id]` when the id was not
already loaded, and not at all otherwise. -/
theorem load_twice_at_most_one_job (s : ShaderAssets) (m : MeshAssets)
    (id : String) :
    ((s.load id).load id).jobs
      = s.jobs ++ (if id ∈ s.loaded then [] else [id])
    ∧ ((m.load id).load id).jobs
      = m.jobs ++ (if id ∈ m.loaded then [] else [id]) := by
  constructor
  · by_cases h : id ∈ s.loaded <;> simp [ShaderAssets.load, h]
  · by_cases h : id ∈ m.loaded <;> simp [MeshAssets.load, h]

/-- Claim C6: the mesh worker does not deliver a decode error for a source
whose texcoord (or normal) array is missing: the build loop indexes
`texcoords[i * 2]` out of bounds and panics, so no result message is sent
at all (modelled by `meshWorkerSend` returning `none`).  One triangulated
model with three position scalars (one vertex) and empty texcoord and
normal arrays exhibits the panic. -/
theorem mesh_worker_missing_texcoords_panics :
    meshWorkerSend "cube"
      (Except.ok [{ positions := [0, 0, 0], texcoords := [], normals := []
                    indices := [0] }])
      = none := by
  rfl

/-- The shader id the drain phase will publish this frame: the id of the
head channel entry when it is an `Ok`, else nothing. -/
def headOkId (ch : List (String × Except LoadError String)) : Option String :=
  match ch with
  | (id, Except.ok _) :: _ => some id
  | _ => none

/-- Claim C9: after `ShaderAssets::hot_reload`, the "reloaded this frame"
signal equals exactly the id of a successfully drained result (so it is
reset to `none` at the start of every call and names at most one id), and
whenever it is `some id` the module map holds an entry for `id`; hence
`Bundle::hot_reload`'s unconditional unwrap of `shaders.get(id)` cannot
panic on the freshly reloaded state. -/
theorem shader_frame_reloaded_signal_safe (s : ShaderAssets) (dev : Nat)
    (debounce : Bool) (changed : List String) (bd : Bundle) (dev2 : Nat) :
    ((s.hot_reload dev debounce changed).1.frame_reloaded = headOkId s.channel)
    ∧ (((s.hot_reload dev debounce changed).1.frame_reloaded).all
        (fun id =>
          (lookupA (s.hot_reload dev debounce changed).1.modules id).isSome)
        = true)
    ∧ ((Bundle.hot_reload bd dev2 (s.hot_reload dev debounce changed).1).isSome
        = true) := by
  rcases hch : s.channel with _ | ⟨⟨id0, r0⟩, rest⟩
  · refine ⟨?_, ?_, ?_⟩
    · simp [ShaderAssets.hot_reload, hch, headOkId]
    · simp [ShaderAssets.hot_reload, hch]
    · simp [Bundle.hot_reload, ShaderAssets.hot_reload, hch]
  · cases r0 with
    | ok src =>
      refine ⟨?_, ?_, ?_⟩
      · simp [ShaderAssets.hot_reload, hch, headOkId]
      · simp [ShaderAssets.hot_reload, hch, lookupA_insertA_self]
      · by_cases hreg : id0 ∈ bd.registered_shaders <;>
          simp [Bundle.hot_reload, ShaderAssets.hot_reload, hch, hreg,
            lookupA_insertA_self]
    | error e =>
      refine ⟨?_, ?_, ?_⟩
      · simp [ShaderAssets.hot_reload, hch, headOkId]
      · simp [ShaderAssets.hot_reload, hch]
      · simp [Bundle.hot_reload, ShaderAssets.hot_reload, hch]

/-- Claim C10: draining a failed load result leaves the materialized GPU
maps of all three registries untouched (a `get` that returned an object
before still returns the same one), and the only other state change is
removal of the failed id from the `loaded` set (shaders, meshes; the
texture registry has no such set and changes nothing else), which makes
the id eligible for a retry `load`.  The calls are taken with a closed
debounce window so the change-scan is inert and the drain effect is
isolated. -/
theorem failed_drain_keeps_gpu_objects
    (sh : ShaderAssets) (me : MeshAssets) (tx : TextureAssets)
    (id1 id2 : String) (e1 e2 e3 : LoadError)
    (r1 : List (String × Except LoadError String))
    (r2 : List (String × Except LoadError (List Vertex × List Nat)))
    (r3 : List (Except LoadError (String × Image)))
    (dev1 dev2 dev3 : Nat)
    (h1 : sh.channel = (id1, Except.error e1) :: r1)
    (h2 : me.channel = (id2, Except.error e2) :: r2)
    (h3 : tx.channel = Except.error e3 :: r3) :
    ((sh.hot_reload dev1 false []).1.modules = sh.modules
      ∧ (sh.hot_reload dev1 false []).1.loaded
          = sh.loaded.filter (fun x => x ≠ id1)
      ∧ (sh.hot_reload dev1 false []).1.jobs = sh.jobs
      ∧ (sh.hot_reload dev1 false []).2 = dev1
      ∧ id1 ∉ (sh.hot_reload dev1 false []).1.loaded)
    ∧ ((me.hot_reload dev2 false []).1.meshes = me.meshes
      ∧ (me.hot_reload dev2 false []).1.loaded
          = me.loaded.filter (fun x => x ≠ id2)
      ∧ (me.hot_reload dev2 false []).1.jobs = me.jobs
      ∧ (me.hot_reload dev2 false []).2 = dev2
      ∧ id2 ∉ (me.hot_reload dev2 false []).1.loaded)
    ∧ ((tx.hot_reload dev3 false []).1.textures = tx.textures
      ∧ (tx.hot_reload dev3 false []).1.cachePresent = tx.cachePresent
      ∧ (tx.hot_reload dev3 false []).1.jobs = tx.jobs
      ∧ (tx.hot_reload dev3 false []).2 = dev3) := by
  refine ⟨⟨?_, ?_, ?_, ?_, ?_⟩, ⟨?_, ?_, ?_, ?_, ?_⟩, ⟨?_, ?_, ?_, ?_⟩⟩ <;>
    simp [ShaderAssets.hot_reload, MeshAssets.hot_reload,
      TextureAssets.hot_reload, h1, h2, h3, scanReload_false,
      List.mem_filter]

/-- Witness for the failed-drain theorem at a concrete input: a shader
registry holding module "a" with a failed reload for "a" at the channel
head keeps the module and drops "a" from the loaded set; same shape for
meshes and textures. -/
theorem failed_drain_keeps_gpu_objects_witness :
    ((ShaderAssets.mk none ["a"] [("a", GpuModule.mk "src" 0)]
        [("a", Except.error (LoadError.mk "bad"))] []).hot_reload 7 false
          []).1.modules
      = [("a", GpuModule.mk "src" 0)]
    ∧ ((MeshAssets.mk ["m"] [] [("m", Except.error (LoadError.mk "bad"))]
        []).hot_reload 7 false []).1.loaded = []
    ∧ ((TextureAssets.mk ["t"] [("t", Texture.mk (Image.mk []) 3)]
        [Except.error (LoadError.mk "bad")] []).hot_reload 7 false
          []).1.textures
      = [("t", Texture.mk (Image.mk []) 3)] := by
  refine ⟨?_, ?_, ?_⟩
  · exact (failed_drain_keeps_gpu_objects
      (ShaderAssets.mk none ["a"] [("a", GpuModule.mk "src" 0)]
        [("a", Except.error (LoadError.mk "bad"))] [])
      (MeshAssets.mk ["m"] [] [("m", Except.error (LoadError.mk "bad"))] [])
      (TextureAssets.mk ["t"] [("t", Texture.mk (Image.mk []) 3)]
        [Except.error (LoadError.mk "bad")] [])
      "a" "m" (LoadError.mk "bad") (LoadError.mk "bad") (LoadError.mk "bad")
      [] [] [] 7 7 7 rfl rfl rfl).1.1
  · exact (failed_drain_keeps_gpu_objects
      (ShaderAssets.mk none ["a"] [("a", GpuModule.mk "src" 0)]
        [("a", Except.error (LoadError.mk "bad"))] [])
      (MeshAssets.mk ["m"] [] [("m", Except.error (LoadError.mk "bad"))] [])
      (TextureAssets.mk ["t"] [("t", Texture.mk (Image.mk []) 3)]
        [Except.error (LoadError.mk "bad")] [])
      "a" "m" (LoadError.mk "bad") (LoadError.mk "bad") (LoadError.mk "bad")
      [] [] [] 7 7 7 rfl rfl rfl).2.1.2.1
  · exact (failed_drain_keeps_gpu_objects
      (ShaderAssets.mk none ["a"] [("a", GpuModule.mk "src" 0)]
        [("a", Except.error (LoadError.mk "bad"))] [])
      (MeshAssets.mk ["m"] [] [("m", Except.error (LoadError.mk "bad"))] [])
      (TextureAssets.mk ["t"] [("t", Texture.mk (Image.mk []) 3)]
        [Except.error (LoadError.mk "bad")] [])
      "a" "m" (LoadError.mk "bad") (LoadError.mk "bad") (LoadError.mk "bad")
      [] [] [] 7 7 7 rfl rfl rfl).2.2.1

/-- Claim C3: for an id whose GPU object is materialized (`Ready`), a
confirmed, debounce-accepted file change during `hot_reload` (debounce
window open, the id's handle reporting a reload, nothing completed on the
channel yet) submits exactly one new background job while the old GPU
object stays in the map; it stays there through any number of further
`hot_reload` calls that do not drain a successful result for the id, and
only the drain of the new `Ok` result swaps the object.  Stated for the
shader registry and the mesh registry. -/
theorem hot_reload_resubmits_without_gap
    (s : ShaderAssets) (m : MeshAssets) (gm : GpuModule) (gme : Mesh)
    (id : String) (src : String) (vs : List Vertex) (ix : List Nat) (dev : Nat)
    (hs : s.get id = some gm) (hcs : s.channel = [])
    (hm : m.get id = some gme) (hcm : m.channel = []) :
    (((s.hot_reload dev true [id]).1.jobs = s.jobs ++ [id])
      ∧ ((s.hot_reload dev true [id]).1.get id = some gm)
      ∧ (∀ dev2 d2 ch2,
          (((s.hot_reload dev true [id]).1).hot_reload dev2 d2 ch2).1.get id
            = some gm)
      ∧ (∀ dev3,
          (({ (s.hot_reload dev true [id]).1 with
                channel := [(id, Except.ok src)] } : ShaderAssets).hot_reload
              dev3 false []).1.get id
            = some (GpuModule.mk src dev3)))
    ∧ (((m.hot_reload dev true [id]).1.jobs = m.jobs ++ [id])
      ∧ ((m.hot_reload dev true [id]).1.get id = some gme)
      ∧ (∀ dev2 d2 ch2,
          (((m.hot_reload dev true [id]).1).hot_reload dev2 d2 ch2).1.get id
            = some gme)
      ∧ (∀ dev3,
          (({ (m.hot_reload dev true [id]).1 with
                channel := [(id, Except.ok (vs, ix))] } : MeshAssets).hot_reload
              dev3 false []).1.get id
            = some (Mesh.new vs ix dev3))) := by
  have hsk : id ∈ s.modules.map Prod.fst :=
    mem_map_fst_of_lookupA s.modules id gm hs
  have hmk : id ∈ m.meshes.map Prod.fst :=
    mem_map_fst_of_lookupA m.meshes id gme hm
  refine ⟨⟨?_, ?_, ?_, ?_⟩, ⟨?_, ?_, ?_, ?_⟩⟩
  · simp [ShaderAssets.hot_reload, hcs, scanReload_single, hsk]
  · simpa [ShaderAssets.hot_reload, ShaderAssets.get, hcs] using hs
  · intro dev2 d2 ch2
    simpa [ShaderAssets.hot_reload, ShaderAssets.get, hcs] using hs
  · intro dev3
    simp [ShaderAssets.hot_reload, ShaderAssets.get, hcs,
      lookupA_insertA_self]
  · simp [MeshAssets.hot_reload, hcm, scanReload_single, hmk]
  · simpa [MeshAssets.hot_reload, MeshAssets.get, hcm] using hm
  · intro dev2 d2 ch2
    simpa [MeshAssets.hot_reload, MeshAssets.get, hcm] using hm
  · intro dev3
    simp [MeshAssets.hot_reload, MeshAssets.get, hcm, lookupA_insertA_self]

/-- Witness for the no-gap theorem: shader "a" (module generation 0) and
mesh "m" both `Ready` with empty channels; the trigger frame resubmits
exactly the jobs ["a"] and ["m"] and `get` still returns the old
objects. -/
theorem hot_reload_resubmits_without_gap_witness :
    ((ShaderAssets.mk none ["a"] [("a", GpuModule.mk "old" 0)] []
        []).hot_reload 4 true ["a"]).1.jobs = ["a"]
    ∧ ((ShaderAssets.mk none ["a"] [("a", GpuModule.mk "old" 0)] []
        []).hot_reload 4 true ["a"]).1.get "a" = some (GpuModule.mk "old" 0)
    ∧ ((MeshAssets.mk ["a"] [("a", Mesh.new [] [] 1)] [] []).hot_reload 4
        true ["a"]).1.get "a" = some (Mesh.new [] [] 1) := by
  refine ⟨?_, ?_, ?_⟩
  · exact (hot_reload_resubmits_without_gap
      (ShaderAssets.mk none ["a"] [("a", GpuModule.mk "old" 0)] [] [])
      (MeshAssets.mk ["a"] [("a", Mesh.new [] [] 1)] [] [])
      (GpuModule.mk "old" 0) (Mesh.new [] [] 1) "a" "x" [] [] 4
      rfl rfl rfl rfl).1.1
  · exact (hot_reload_resubmits_without_gap
      (ShaderAssets.mk none ["a"] [("a", GpuModule.mk "old" 0)] [] [])
      (MeshAssets.mk ["a"] [("a", Mesh.new [] [] 1)] [] [])
      (GpuModule.mk "old" 0) (Mesh.new [] [] 1) "a" "x" [] [] 4
      rfl rfl rfl rfl).1.2.1
  · exact (hot_reload_resubmits_without_gap
      (ShaderAssets.mk none ["a"] [("a", GpuModule.mk "old" 0)] [] [])
      (MeshAssets.mk ["a"] [("a", Mesh.new [] [] 1)] [] [])
      (GpuModule.mk "old" 0) (Mesh.new [] [] 1) "a" "x" [] [] 4
      rfl rfl rfl rfl).2.2.1

/-- Claim C7: when the shader registry signals `frame_reloaded = some id`,
`Bundle::hot_reload` rebuilds and replaces the stored pipeline entry for
`id` exactly when `id` is in the registered-shaders set; for an
unregistered id the pipeline map is left completely unchanged; and a
rebuild stores a newly constructed pipeline object (under the freshness
invariant of the device counter, the new object differs from any
previously stored one). -/
theorem pipeline_rebuild_iff_registered
    (bd : Bundle) (s : ShaderAssets) (dev : Nat) (id : String) (m : GpuModule)
    (hsig : s.frame_reloaded = some id)
    (hmod : lookupA s.modules id = some m)
    (hfresh : ∀ p ∈ bd.pipelines, (Prod.snd p).gen < dev) :
    (id ∈ bd.registered_shaders →
      Bundle.hot_reload bd dev s
          = some (Bundle.mk (insertA bd.pipelines id (Pipeline.new m dev))
              bd.registered_shaders, dev + 1)
        ∧ lookupA (insertA bd.pipelines id (Pipeline.new m dev)) id
            = some (Pipeline.new m dev)
        ∧ ∀ pOld, lookupA bd.pipelines id = some pOld →
            Pipeline.new m dev ≠ pOld)
    ∧ (id ∉ bd.registered_shaders →
        Bundle.hot_reload bd dev s = some (bd, dev)) := by
  constructor
  · intro hreg
    refine ⟨?_, lookupA_insertA_self _ _ _, ?_⟩
    · simp [Bundle.hot_reload, hsig, hreg, hmod]
    · intro pOld hold heq
      have hmem := mem_of_lookupA bd.pipelines id pOld hold
      have hlt := hfresh (id, pOld) hmem
      have hpg : pOld.gen = dev := by
        rw [← heq]
        rfl
      simp only [hpg] at hlt
      exact lt_irrefl dev hlt
  · intro hreg
    simp [Bundle.hot_reload, hsig, hreg]

/-- Witness for the rebuild theorem: shader "model" is registered and was
just reloaded (module generation 3); with device counter 5 the bundle
replaces the old pipeline (generation 0) by the freshly built one
(generation 5) and bumps the counter. -/
theorem pipeline_rebuild_iff_registered_witness :
    Bundle.hot_reload (Bundle.mk [("model", Pipeline.mk 1 0)] ["model"]) 5
        (ShaderAssets.mk (some "model") ["model"]
          [("model", GpuModule.mk "src" 3)] [] [])
      = some (Bundle.mk [("model", Pipeline.new (GpuModule.mk "src" 3) 5)]
          ["model"], 6)
    ∧ Pipeline.new (GpuModule.mk "src" 3) 5 ≠ Pipeline.mk 1 0 := by
  constructor
  · exact ((pipeline_rebuild_iff_registered
      (Bundle.mk [("model", Pipeline.mk 1 0)] ["model"])
      (ShaderAssets.mk (some "model") ["model"]
        [("model", GpuModule.mk "src" 3)] [] [])
      5 "model" (GpuModule.mk "src" 3) rfl rfl (by decide)).1
        (by decide)).1
  · exact ((pipeline_rebuild_iff_registered
      (Bundle.mk [("model", Pipeline.mk 1 0)] ["model"])
      (ShaderAssets.mk (some "model") ["model"]
        [("model", GpuModule.mk "src" 3)] [] [])
      5 "model" (GpuModule.mk "src" 3) rfl rfl (by decide)).1
        (by decide)).2.2 (Pipeline.mk 1 0) rfl

theorem renderEntry_key (mats : List (String × MaterialData)) (bd : Bundle)
    (meshes : List (String × Mesh)) (mm : MaterialManager)
    (key : Key) (ia : InstanceArray) (dc : DrawCall)
    (h : renderEntry mats bd meshes mm key ia = some dc) : dc.key = key := by
  unfold renderEntry at h
  split at h
  · exact Option.noConfusion h
  · split at h
    · exact Option.noConfusion h
    · split at h <;>
        first
        | (injection h with h2
           rw [← h2])
        | exact Option.noConfusion h

theorem renderEntry_isSome (mats : List (String × MaterialData)) (bd : Bundle)
    (meshes : List (String × Mesh)) (mm : MaterialManager)
    (key : Key) (ia : InstanceArray) :
    (renderEntry mats bd meshes mm key ia).isSome
      = (!ia.data.isEmpty && depsResolved mats bd meshes mm key ia) := by
  unfold renderEntry depsResolved
  rcases hsh : mm.get_shader_id key.material_id with _ | sid
  · cases hempty : ia.data.isEmpty <;> simp [hsh, hempty]
  · rcases hm : lookupA meshes key.mesh_id with _ | mesh <;>
      rcases hmd : lookupA mats key.material_id with _ | md <;>
      rcases hp : lookupA bd.pipelines sid with _ | pipe <;>
      rcases hb : ia.buffer with _ | buf <;>
      cases hempty : ia.data.isEmpty <;>
      simp [hsh, hm, hmd, hp, hb, hempty]

theorem render_filter_not_mem (mats : List (String × MaterialData))
    (bd : Bundle) (meshes : List (String × Mesh)) (mm : MaterialManager)
    (key : Key) (l : List (Key × InstanceArray))
    (hk : key ∉ l.map Prod.fst) :
    (l.filterMap (fun p => renderEntry mats bd meshes mm p.1 p.2)).filter
        (fun dc => decide (dc.key = key)) = [] := by
  induction l with
  | nil => rfl
  | cons p rest ih =>
    simp only [List.map_cons, List.mem_cons, not_or] at hk
    rcases h : renderEntry mats bd meshes mm p.1 p.2 with _ | dc
    · simpa [List.filterMap_cons, h] using ih hk.2
    · have hkey := renderEntry_key mats bd meshes mm p.1 p.2 dc h
      have hne : ¬ dc.key = key := by
        rw [hkey]
        exact fun e => hk.1 e.symm
      simpa [List.filterMap_cons, h, List.filter_cons, hne] using ih hk.2

/-- Claim C1: for an entry of the batch map with a non-empty instance
array, `Batches::render` issues exactly one draw call for its key when all
four dependencies (mesh in the registry, bind-group cache entry for the
material id, pipeline for the material's shader id, built instance buffer)
resolve, and zero draw calls for that key otherwise — the key is silently
skipped while the rest of the frame still renders (`render` is total). -/
theorem render_one_draw_iff_deps_resolved
    (b : Batches) (bd : Bundle) (meshes : List (String × Mesh))
    (mm : MaterialManager) (key : Key) (ia : InstanceArray)
    (hnodup : (b.instances.map Prod.fst).Nodup)
    (hmem : (key, ia) ∈ b.instances)
    (hne : ia.data ≠ []) :
    ((b.render bd meshes mm).filter (fun dc => decide (dc.key = key))).length
      = if depsResolved b.materials bd meshes mm key ia = true then 1 else 0 := by
  unfold Batches.render
  have hempty : ia.data.isEmpty = false := by
    obtain ⟨x, xs, hxx⟩ := List.exists_cons_of_ne_nil hne
    rw [hxx]
    rfl
  revert hnodup hmem
  induction b.instances with
  | nil =>
    intro hnodup hmem
    simp at hmem
  | cons p rest ih =>
    intro hnodup hmem
    simp only [List.map_cons, List.nodup_cons] at hnodup
    cases hmem with
    | head =>
      have hrest := render_filter_not_mem b.materials bd meshes mm key rest
        hnodup.1
      rcases h : renderEntry b.materials bd meshes mm key ia with _ | dc
      · have hsome : (renderEntry b.materials bd meshes mm key ia).isSome
            = false := by rw [h]; rfl
        rw [renderEntry_isSome, hempty] at hsome
        simp only [Bool.not_false, Bool.true_and] at hsome
        simp [List.filterMap_cons, h, hrest, hsome]
      · have hsome : (renderEntry b.materials bd meshes mm key ia).isSome
            = true := by rw [h]; rfl
        rw [renderEntry_isSome, hempty] at hsome
        simp only [Bool.not_false, Bool.true_and] at hsome
        have hkey := renderEntry_key b.materials bd meshes mm key ia dc h
        simp [List.filterMap_cons, h, List.filter_cons, hkey, hrest, hsome]
    | tail _ hmem =>
      have hkne : ¬ p.1 = key := by
        intro e
        apply hnodup.1
        rw [e]
        exact List.mem_map.mpr ⟨(key, ia), hmem, rfl⟩
      rcases h : renderEntry b.materials bd meshes mm p.1 p.2 with _ | dc
      · simpa [List.filterMap_cons, h] using ih hnodup.2 hmem
      · have hkey := renderEntry_key b.materials bd meshes mm p.1 p.2 dc h
        have hne2 : ¬ dc.key = key := by rw [hkey]; exact hkne
        simpa [List.filterMap_cons, h, List.filter_cons, hne2]
          using ih hnodup.2 hmem

/-- Witness for the render-dependency theorem: a ready key (all four
dependencies resolve) gets exactly one draw call, and the same key with
the pipeline missing for its shader id gets zero. -/
theorem render_one_draw_iff_deps_resolved_witness :
    (((Batches.mk [("mat", MaterialData.mk (BindGroup.mk "white" 0) [0])]
        [(Key.mk "cube" "mat",
          InstanceArray.mk (some [Instance.mk 1 1]) [Instance.mk 1 1])]).render
          (Bundle.mk [("model", Pipeline.mk 0 1)] ["model"])
          [("cube", Mesh.new [] [0] 2)]
          (MaterialManager.mk [("mat",
            MaterialRecord.mk "model" "white" [0])])).filter
        (fun dc => decide (dc.key = Key.mk "cube" "mat"))).length = 1
    ∧ (((Batches.mk [("mat", MaterialData.mk (BindGroup.mk "white" 0) [0])]
        [(Key.mk "cube" "mat",
          InstanceArray.mk (some [Instance.mk 1 1]) [Instance.mk 1 1])]).render
          (Bundle.mk [] ["model"])
          [("cube", Mesh.new [] [0] 2)]
          (MaterialManager.mk [("mat",
            MaterialRecord.mk "model" "white" [0])])).filter
        (fun dc => decide (dc.key = Key.mk "cube" "mat"))).length = 0 := by
  constructor
  · exact (render_one_draw_iff_deps_resolved
      (Batches.mk [("mat", MaterialData.mk (BindGroup.mk "white" 0) [0])]
        [(Key.mk "cube" "mat",
          InstanceArray.mk (some [Instance.mk 1 1]) [Instance.mk 1 1])])
      (Bundle.mk [("model", Pipeline.mk 0 1)] ["model"])
      [("cube", Mesh.new [] [0] 2)]
      (MaterialManager.mk [("mat", MaterialRecord.mk "model" "white" [0])])
      (Key.mk "cube" "mat")
      (InstanceArray.mk (some [Instance.mk 1 1]) [Instance.mk 1 1])
      (by decide) (by decide) (by decide)).trans (by decide)
  · exact (render_one_draw_iff_deps_resolved
      (Batches.mk [("mat", MaterialData.mk (BindGroup.mk "white" 0) [0])]
        [(Key.mk "cube" "mat",
          InstanceArray.mk (some [Instance.mk 1 1]) [Instance.mk 1 1])])
      (Bundle.mk [] ["model"])
      [("cube", Mesh.new [] [0] 2)]
      (MaterialManager.mk [("mat", MaterialRecord.mk "model" "white" [0])])
      (Key.mk "cube" "mat")
      (InstanceArray.mk (some [Instance.mk 1 1]) [Instance.mk 1 1])
      (by decide) (by decide) (by decide)).trans (by decide)

theorem foldl_add_model_single (K : Key) (L M : List Instance)
    (buf0 : Option (List Instance)) (mats : List (String × MaterialData)) :
    L.foldl (fun b i => b.add_model K.mesh_id K.material_id i)
        (Batches.mk mats [(K, InstanceArray.mk buf0 M)])
      = Batches.mk mats [(K, InstanceArray.mk buf0 (M ++ L))] := by
  induction L generalizing M with
  | nil => simp
  | cons i L ih =>
    rw [List.foldl_cons]
    have hstep : (Batches.mk mats [(K, InstanceArray.mk buf0 M)]).add_model
        K.mesh_id K.material_id i
        = Batches.mk mats [(K, InstanceArray.mk buf0 (M ++ [i]))] := by
      simp [Batches.add_model, pushInstance]
    rw [hstep, ih]
    simp

/-- Claim C8: N `add_model` calls for key K within one frame (starting
from the cleared batch state) leave exactly the N instance records in
insertion order; `prepare` uploads an instance buffer holding exactly that
list; and `render` issues exactly one indexed-instanced draw call for K
whose instance count is N. -/
theorem add_prepare_render_roundtrip
    (K : Key) (L : List Instance) (mm : MaterialManager)
    (textures : List (String × Texture)) (meshes : List (String × Mesh))
    (bd : Bundle) (rec : MaterialRecord) (t : Texture) (mesh : Mesh)
    (pipe : Pipeline) (dev : Nat)
    (hL : L ≠ [])
    (hrec : lookupA mm.materials K.material_id = some rec)
    (ht : lookupA textures rec.texture_id = some t)
    (hmesh : lookupA meshes K.mesh_id = some mesh)
    (hpipe : lookupA bd.pipelines rec.shader_id = some pipe) :
    (L.foldl (fun b i => b.add_model K.mesh_id K.material_id i)
        (Batches.mk [] [])).instances = [(K, InstanceArray.mk none L)]
    ∧ ((L.foldl (fun b i => b.add_model K.mesh_id K.material_id i)
          (Batches.mk [] [])).prepare dev textures mm).1.instances
        = [(K, InstanceArray.mk (some L) L)]
    ∧ (((L.foldl (fun b i => b.add_model K.mesh_id K.material_id i)
          (Batches.mk [] [])).prepare dev textures mm).1.render bd meshes mm)
        = [DrawCall.mk K pipe.gen (BindGroup.mk rec.texture_id dev)
            mesh.num_indices L.length L] := by
  obtain ⟨i0, L0, rfl⟩ := List.exists_cons_of_ne_nil hL
  have hfold : (i0 :: L0).foldl
      (fun b i => b.add_model K.mesh_id K.material_id i) (Batches.mk [] [])
      = Batches.mk [] [(K, InstanceArray.mk none (i0 :: L0))] := by
    rw [List.foldl_cons]
    have hstep : (Batches.mk [] []).add_model K.mesh_id K.material_id i0
        = Batches.mk [] [(K, InstanceArray.mk none [i0])] := by
      simp [Batches.add_model, pushInstance]
    rw [hstep, foldl_add_model_single]
    rfl
  rw [hfold]
  have htex : mm.get_texture_id K.material_id = some rec.texture_id := by
    simp [MaterialManager.get_texture_id, hrec]
  have huni : mm.get_uniform_data_bytes K.material_id = some rec.uniform := by
    simp [MaterialManager.get_uniform_data_bytes, hrec]
  have hsh : mm.get_shader_id K.material_id = some rec.shader_id := by
    simp [MaterialManager.get_shader_id, hrec]
  have hprep : (Batches.mk [] [(K, InstanceArray.mk none
        (i0 :: L0))]).prepare dev textures mm
      = (Batches.mk
          [(K.material_id, MaterialData.mk (BindGroup.mk rec.texture_id dev)
            rec.uniform)]
          [(K, InstanceArray.mk (some (i0 :: L0)) (i0 :: L0))], dev + 1) := by
    simp [Batches.prepare, prepareGo, htex, huni, ht, lookupA, insertA]
  refine ⟨rfl, ?_, ?_⟩
  · rw [hprep]
  · rw [hprep]
    simp [Batches.render, renderEntry, hsh, hmesh, hpipe, lookupA]

/-- Witness for the round-trip theorem: two instances added for one key
produce a two-record buffer in insertion order and one draw call with
instance count two. -/
theorem add_prepare_render_roundtrip_witness :
    ((([Instance.mk 1 1, Instance.mk 2 2].foldl
        (fun b i => b.add_model "cube" "mat" i)
        (Batches.mk [] [])).prepare 0
          [("white", Texture.mk (Image.mk []) 0)]
          (MaterialManager.mk
            [("mat", MaterialRecord.mk "model" "white" [7])])).1.render
        (Bundle.mk [("model", Pipeline.mk 0 1)] ["model"])
        [("cube", Mesh.new [] [0, 1, 2] 2)]
        (MaterialManager.mk [("mat", MaterialRecord.mk "model" "white" [7])]))
      = [DrawCall.mk (Key.mk "cube" "mat") 1 (BindGroup.mk "white" 0) 3 2
          [Instance.mk 1 1, Instance.mk 2 2]] := by
  exact (add_prepare_render_roundtrip (Key.mk "cube" "mat")
    [Instance.mk 1 1, Instance.mk 2 2]
    (MaterialManager.mk [("mat", MaterialRecord.mk "model" "white" [7])])
    [("white", Texture.mk (Image.mk []) 0)]
    [("cube", Mesh.new [] [0, 1, 2] 2)]
    (Bundle.mk [("model", Pipeline.mk 0 1)] ["model"])
    (MaterialRecord.mk "model" "white" [7])
    (Texture.mk (Image.mk []) 0)
    (Mesh.new [] [0, 1, 2] 2)
    (Pipeline.mk 0 1) 0
    (by decide) rfl rfl rfl rfl).2.2

/-- Claim C5 (counterexample): two distinct batch keys with different mesh
ids whose materials resolve to the same texture id "white" — but through
two different material ids — get TWO bind groups created for that texture
id (device counter advances twice, two cache entries whose bind groups
both reference "white"), because the cache is keyed by material id, not
texture id.  This refutes the claim that exactly one bind group is created
per texture id. -/
theorem same_texture_two_bind_groups :
    (((Batches.mk []
        [(Key.mk "a" "m1", InstanceArray.mk none [Instance.mk 0 0]),
          (Key.mk "b" "m2", InstanceArray.mk none [Instance.mk 0 0])]).prepare
        0 [("white", Texture.mk (Image.mk []) 9)]
        (MaterialManager.mk
          [("m1", MaterialRecord.mk "model" "white" [0]),
            ("m2", MaterialRecord.mk "model" "white" [1])])).1.materials.filter
        (fun p => decide (p.2.bind_group.texture_id = "white"))).length = 2
    ∧ ¬ ((((Batches.mk []
        [(Key.mk "a" "m1", InstanceArray.mk none [Instance.mk 0 0]),
          (Key.mk "b" "m2", InstanceArray.mk none [Instance.mk 0 0])]).prepare
        0 [("white", Texture.mk (Image.mk []) 9)]
        (MaterialManager.mk
          [("m1", MaterialRecord.mk "model" "white" [0]),
            ("m2", MaterialRecord.mk "model" "white" [1])])).1.materials.filter
        (fun p => decide (p.2.bind_group.texture_id = "white"))).length = 1) := by
  constructor
  · rfl
  · decide

/-- Claim C5 (amended): two distinct batch keys sharing the same MATERIAL
id (and hence the same texture id) but different mesh ids get exactly one
bind group created for that material id — the device counter advances
once, the single cache entry records the material's texture id — and a
second `prepare` one frame later reuses the entry without creating
another bind group. -/
theorem one_bind_group_per_material_id
    (mm : MaterialManager) (textures : List (String × Texture))
    (meshA meshB matId : String) (iaA iaB : InstanceArray)
    (rec : MaterialRecord) (t : Texture) (dev : Nat)
    (hA : iaA.data ≠ []) (hB : iaB.data ≠ [])
    (hrec : lookupA mm.materials matId = some rec)
    (ht : lookupA textures rec.texture_id = some t) :
    ((Batches.mk [] [(Key.mk meshA matId, iaA),
        (Key.mk meshB matId, iaB)]).prepare dev textures mm).2 = dev + 1
    ∧ ((Batches.mk [] [(Key.mk meshA matId, iaA),
        (Key.mk meshB matId, iaB)]).prepare dev textures mm).1.materials
      = [(matId, MaterialData.mk (BindGroup.mk rec.texture_id dev)
          rec.uniform)]
    ∧ ((((Batches.mk [] [(Key.mk meshA matId, iaA),
        (Key.mk meshB matId, iaB)]).prepare dev textures mm).1.prepare
          (dev + 1) textures mm)).2 = dev + 1
    ∧ ((((Batches.mk [] [(Key.mk meshA matId, iaA),
        (Key.mk meshB matId, iaB)]).prepare dev textures mm).1.prepare
          (dev + 1) textures mm)).1.materials
      = [(matId, MaterialData.mk (BindGroup.mk rec.texture_id dev)
          rec.uniform)] := by
  obtain ⟨xA, dA, hAx⟩ := List.exists_cons_of_ne_nil hA
  obtain ⟨xB, dB, hBx⟩ := List.exists_cons_of_ne_nil hB
  have htex : mm.get_texture_id matId = some rec.texture_id := by
    simp [MaterialManager.get_texture_id, hrec]
  have huni : mm.get_uniform_data_bytes matId = some rec.uniform := by
    simp [MaterialManager.get_uniform_data_bytes, hrec]
  have hprep : ((Batches.mk [] [(Key.mk meshA matId, iaA),
      (Key.mk meshB matId, iaB)]).prepare dev textures mm)
      = (Batches.mk
          [(matId, MaterialData.mk (BindGroup.mk rec.texture_id dev)
            rec.uniform)]
          [(Key.mk meshA matId, InstanceArray.mk (some iaA.data) iaA.data),
            (Key.mk meshB matId, InstanceArray.mk (some iaB.data) iaB.data)],
          dev + 1) := by
    simp [Batches.prepare, prepareGo, htex, huni, ht, hAx, hBx,
      lookupA, insertA]
  have hprep2 : ((Batches.mk
      [(matId, MaterialData.mk (BindGroup.mk rec.texture_id dev) rec.uniform)]
      [(Key.mk meshA matId, InstanceArray.mk (some iaA.data) iaA.data),
        (Key.mk meshB matId, InstanceArray.mk (some iaB.data) iaB.data)]).prepare
        (dev + 1) textures mm)
      = (Batches.mk
          [(matId, MaterialData.mk (BindGroup.mk rec.texture_id dev)
            rec.uniform)]
          [(Key.mk meshA matId, InstanceArray.mk (some iaA.data) iaA.data),
            (Key.mk meshB matId, InstanceArray.mk (some iaB.data) iaB.data)],
          dev + 1) := by
    simp [Batches.prepare, prepareGo, htex, huni, ht, hAx, hBx,
      lookupA, insertA]
  refine ⟨?_, ?_, ?_, ?_⟩
  · rw [hprep]
  · rw [hprep]
  · rw [hprep, hprep2]
  · rw [hprep, hprep2]

/-- Witness for the one-bind-group-per-material theorem: keys ("a","mat")
and ("b","mat") with material "mat" resolving to texture "white" create a
single cache entry with one bind group at device generation 5. -/
theorem one_bind_group_per_material_id_witness :
    ((Batches.mk [] [(Key.mk "a" "mat",
        InstanceArray.mk none [Instance.mk 0 0]),
        (Key.mk "b" "mat", InstanceArray.mk none [Instance.mk 0 0])]).prepare
        5 [("white", Texture.mk (Image.mk []) 0)]
        (MaterialManager.mk
          [("mat", MaterialRecord.mk "model" "white" [3])])).1.materials
      = [("mat", MaterialData.mk (BindGroup.mk "white" 5) [3])] := by
  exact (one_bind_group_per_material_id
    (MaterialManager.mk [("mat", MaterialRecord.mk "model" "white" [3])])
    [("white", Texture.mk (Image.mk []) 0)]
    "a" "b" "mat"
    (InstanceArray.mk none [Instance.mk 0 0])
    (InstanceArray.mk none [Instance.mk 0 0])
    (MaterialRecord.mk "model" "white" [3])
    (Texture.mk (Image.mk []) 0) 5
    (by decide) (by decide) rfl rfl).2.1

/-- Claim C4 (code bug): `Batches::prepare` uses `return` instead of
`continue` when a key's material id is unknown to the `MaterialManager`
(`let Some(texture_id) = materials.get_texture_id(..) else return`,
model.rs line 182-185, where `render` uses `continue` for the same
lookup).  At the failing input — iteration order places a key with
unknown material "ghost" before a fully resolvable key with material
"model" — prepare aborts early: the resolvable key's instance buffer is
never uploaded (`buffer` stays `none`), no bind-group cache entry is
created for "model", and the device counter shows zero creations; the
claim says every non-empty key is uploaded regardless of other keys. -/
theorem prepare_early_return_skips_later_keys :
    (lookupA ((Batches.mk []
        [(Key.mk "cube" "ghost", InstanceArray.mk none [Instance.mk 0 0]),
          (Key.mk "cube" "model", InstanceArray.mk none [Instance.mk 0 0])]).prepare
        0 [("white", Texture.mk (Image.mk []) 9)]
        (MaterialManager.mk
          [("model", MaterialRecord.mk "model" "white" [0])])).1.instances
        (Key.mk "cube" "model"))
      = some (InstanceArray.mk none [Instance.mk 0 0])
    ∧ ((Batches.mk []
        [(Key.mk "cube" "ghost", InstanceArray.mk none [Instance.mk 0 0]),
          (Key.mk "cube" "model", InstanceArray.mk none [Instance.mk 0 0])]).prepare
        0 [("white", Texture.mk (Image.mk []) 9)]
        (MaterialManager.mk
          [("model", MaterialRecord.mk "model" "white" [0])])).1.materials = []
    ∧ ((Batches.mk []
        [(Key.mk "cube" "ghost", InstanceArray.mk none [Instance.mk 0 0]),
          (Key.mk "cube" "model", InstanceArray.mk none [Instance.mk 0 0])]).prepare
        0 [("white", Texture.mk (Image.mk []) 9)]
        (MaterialManager.mk
          [("model", MaterialRecord.mk "model" "white" [0])])).2 = 0 := by
  refine ⟨?_, ?_, ?_⟩ <;> rfl

end WgpuLuaFun
